import Mathlib

/-!
Shallow embedding of `src/components/canvas/canvas_session.rs` from the
ferrite-rs/servo repository: the canvas session protocol endpoint
(`canvas_session`), the message dispatcher (`handle_canvas_message`), and the
asynchronous command queue (`AsyncQueue` with its serializer loop,
`send_canvas_message` and `enqueue_task`).

Modelling conventions:
* `f32` / `f64` scalar payloads are modelled as `Int`: no verified claim
  depends on floating-point arithmetic, only on the structure of the values
  carried.  The Rust `as usize` cast on an `f64` is modelled by `Int.toNat`
  (truncation with clamping of negatives to zero, which agrees with Rust's
  saturating cast on integral values).
* `u64` / `usize` payloads are modelled as `Nat`; byte buffers as `List Nat`.
* Types imported from external crates (`cssparser`, `style`, `canvas_traits`,
  `ipc_channel`) whose internals are irrelevant to every claim are modelled as
  opaque tokens (a structure wrapping a `Nat`), except where a claim needs
  more structure (`IpcBytesSender` carries a liveness flag so that the
  fallibility of `send` is visible).
* The tokio mpsc channel, the once channel and the async runtime are modelled
  by explicit state: the serializer loop becomes a fold over the FIFO list of
  queue items it receives, producing the list of interactions it emits, in
  order.
-/

namespace Servo

/-- Model of an `f32` scalar (see the modelling conventions above). -/
abbrev F32 := Int

/-- Model of an `f64` scalar (see the modelling conventions above). -/
abbrev F64 := Int

/-- Model of `euclid::default::Point2D<T>`. -/
structure Point2D (α : Type) where
  x : α
  y : α
deriving DecidableEq, Repr

/-- Model of `euclid::default::Size2D<T>`. -/
structure Size2D (α : Type) where
  width : α
  height : α
deriving DecidableEq, Repr

/-- Model of `euclid::default::Rect<T>`. -/
structure Rect (α : Type) where
  origin : Point2D α
  size : Size2D α
deriving DecidableEq, Repr

/-- Model of `euclid::default::Transform2D<T>` (a 2x3 matrix). -/
structure Transform2D (α : Type) where
  m11 : α
  m12 : α
  m21 : α
  m22 : α
  m31 : α
  m32 : α
deriving DecidableEq, Repr

/-- Model of `cssparser::RGBA` (four u8 components). -/
structure RGBA where
  red : Nat
  green : Nat
  blue : Nat
  alpha : Nat
deriving DecidableEq, Repr

/-- Opaque model of `canvas_traits::canvas::FillOrStrokeStyle`: no claim
inspects the style value, only that it is forwarded intact. -/
structure FillOrStrokeStyle where
  token : Nat
deriving DecidableEq, Repr

/-- Opaque model of `canvas_traits::canvas::LineCapStyle`. -/
structure LineCapStyle where
  token : Nat
deriving DecidableEq, Repr

/-- Opaque model of `canvas_traits::canvas::LineJoinStyle`. -/
structure LineJoinStyle where
  token : Nat
deriving DecidableEq, Repr

/-- Opaque model of `canvas_traits::canvas::CompositionOrBlending`. -/
structure CompositionOrBlending where
  token : Nat
deriving DecidableEq, Repr

/-- Opaque model of `style::properties::style_structs::Font`. -/
structure FontStyleStruct where
  token : Nat
deriving DecidableEq, Repr

/-- Opaque model of `canvas_traits::canvas::TextAlign`. -/
structure TextAlign where
  token : Nat
deriving DecidableEq, Repr

/-- Opaque model of `canvas_traits::canvas::TextBaseline`. -/
structure TextBaseline where
  token : Nat
deriving DecidableEq, Repr

/-- Opaque model of `canvas_traits::canvas::FillRule`. -/
structure FillRule where
  token : Nat
deriving DecidableEq, Repr

/-- Opaque model of `canvas_traits::canvas::CanvasImageData`. -/
structure CanvasImageData where
  token : Nat
deriving DecidableEq, Repr

/-- Model of `serde_bytes::ByteBuf`: a byte vector. -/
abbrev ByteBuf := List Nat

/-- Model of `ipc_channel::ipc::IpcSharedMemory`: a byte vector
(`img.to_vec()` in the source reads it out as bytes). -/
abbrev IpcSharedMemory := List Nat

/-- Model of `ipc::IpcSender<IpcSharedMemory>` as an opaque sink token. -/
structure IpcPixelSender where
  token : Nat
deriving DecidableEq, Repr

/-- Model of `ipc::IpcBytesSender`.  Modelled from the spec: the ipc channel
library is an external collaborator; `connected` records whether the receiving
end is still alive, which decides whether `send` succeeds or fails. -/
structure IpcBytesSender where
  connected : Bool
deriving DecidableEq, Repr

/-- Faults of the ipc send. Modelled from the spec: an opaque failure of
delivering a value to an output sink. -/
inductive IpcFault where
  | disconnected
deriving DecidableEq, Repr

/-- `IpcBytesSender::send`.  Modelled from the spec: delivery to the caller's
output sink succeeds exactly when the receiving end is still connected; the
payload itself is delivered out-of-band. -/
def IpcBytesSender.send (s : IpcBytesSender) (_data : List Nat) :
    Except IpcFault Unit :=
  if s.connected then Except.ok () else Except.error IpcFault.disconnected

/-- One call into the surface mutator (`CanvasData` in `canvas_data.rs`, which
is outside this source tree).  Modelled from the spec: the mutator exposes
`apply`-style methods, one per drawing/state primitive; a call record names
the method and its arguments so that the exact sequence of mutator calls made
by the session code is observable. -/
inductive MutatorCall where
  | set_fill_style (style : FillOrStrokeStyle)
  | fill_text (text : String) (x y : F64) (max_width : Option F64) (is_rtl : Bool)
  | fill_rect (rect : Rect F32)
  | set_stroke_style (style : FillOrStrokeStyle)
  | stroke_rect (rect : Rect F32)
  | clear_rect (rect : Rect F32)
  | begin_path
  | close_path
  | fill
  | stroke
  | clip
  | draw_image (data : List Nat) (image_size : Size2D F64)
      (dest_rect source_rect : Rect F64) (smoothing_enabled : Bool)
  | move_to (point : Point2D F32)
  | line_to (point : Point2D F32)
  | rect (r : Rect F32)
  | quadratic_curve_to (cp pt : Point2D F32)
  | bezier_curve_to (cp1 cp2 pt : Point2D F32)
  | arc (center : Point2D F32) (radius start_angle end_angle : F32) (ccw : Bool)
  | arc_to (cp1 cp2 : Point2D F32) (radius : F32)
  | ellipse (center : Point2D F32)
      (radius_x radius_y rotation start_angle end_angle : F32) (ccw : Bool)
  | restore_context_state
  | save_context_state
  | set_line_width (width : F32)
  | set_line_cap (cap : LineCapStyle)
  | set_line_join (join : LineJoinStyle)
  | set_miter_limit (limit : F32)
  | set_transform (matrix : Transform2D F32)
  | set_global_alpha (alpha : F32)
  | set_global_composition (op : CompositionOrBlending)
  | set_shadow_offset_x (value : F64)
  | set_shadow_offset_y (value : F64)
  | set_shadow_blur (value : F64)
  | set_shadow_color (color : RGBA)
  | set_font (font_style : FontStyleStruct)
  | set_text_align (text_align : TextAlign)
  | set_text_baseline (text_baseline : TextBaseline)
  | put_image_data (data : List Nat) (rect : Rect Nat)
  | recreate (size : Size2D Nat)
  | send_pixels (sender : IpcPixelSender)
deriving DecidableEq, Repr

/-- Model of `CanvasData` (the Actor's surface state, owned by
`canvas_data.rs`, outside this source tree).  Modelled from the spec: the
Actor is the exclusive owner of the mutable surface; mutator calls are
recorded in order in `calls`, and the query methods (`current_transform`,
`read_pixels`, `point_in_path`, snapshot `get_data`) are oracle fields, since
no claim depends on their values, only on how the session code routes them. -/
structure CanvasData where
  calls : List MutatorCall
  transformVal : Transform2D F32
  pixelsFn : Rect Nat → Size2D Nat → List Nat
  pointFn : F64 → F64 → FillRule → Bool
  dataVal : Option CanvasImageData

/-- Append one mutator call to the Actor's call log. -/
def CanvasData.record (c : CanvasData) (call : MutatorCall) : CanvasData :=
  { c with calls := c.calls ++ [call] }

def CanvasData.set_fill_style (c : CanvasData) (s : FillOrStrokeStyle) : CanvasData :=
  c.record (MutatorCall.set_fill_style s)

def CanvasData.fill_text (c : CanvasData) (t : String) (x y : F64)
    (mw : Option F64) (is_rtl : Bool) : CanvasData :=
  c.record (MutatorCall.fill_text t x y mw is_rtl)

def CanvasData.fill_rect (c : CanvasData) (r : Rect F32) : CanvasData :=
  c.record (MutatorCall.fill_rect r)

def CanvasData.set_stroke_style (c : CanvasData) (s : FillOrStrokeStyle) : CanvasData :=
  c.record (MutatorCall.set_stroke_style s)

def CanvasData.stroke_rect (c : CanvasData) (r : Rect F32) : CanvasData :=
  c.record (MutatorCall.stroke_rect r)

def CanvasData.clear_rect (c : CanvasData) (r : Rect F32) : CanvasData :=
  c.record (MutatorCall.clear_rect r)

def CanvasData.begin_path (c : CanvasData) : CanvasData :=
  c.record MutatorCall.begin_path

def CanvasData.close_path (c : CanvasData) : CanvasData :=
  c.record MutatorCall.close_path

def CanvasData.fill (c : CanvasData) : CanvasData :=
  c.record MutatorCall.fill

def CanvasData.stroke (c : CanvasData) : CanvasData :=
  c.record MutatorCall.stroke

def CanvasData.clip (c : CanvasData) : CanvasData :=
  c.record MutatorCall.clip

def CanvasData.draw_image (c : CanvasData) (data : List Nat)
    (image_size : Size2D F64) (dest_rect source_rect : Rect F64)
    (smoothing : Bool) : CanvasData :=
  c.record (MutatorCall.draw_image data image_size dest_rect source_rect smoothing)

def CanvasData.move_to (c : CanvasData) (p : Point2D F32) : CanvasData :=
  c.record (MutatorCall.move_to p)

def CanvasData.line_to (c : CanvasData) (p : Point2D F32) : CanvasData :=
  c.record (MutatorCall.line_to p)

def CanvasData.rect (c : CanvasData) (r : Rect F32) : CanvasData :=
  c.record (MutatorCall.rect r)

def CanvasData.quadratic_curve_to (c : CanvasData) (cp pt : Point2D F32) : CanvasData :=
  c.record (MutatorCall.quadratic_curve_to cp pt)

def CanvasData.bezier_curve_to (c : CanvasData) (cp1 cp2 pt : Point2D F32) : CanvasData :=
  c.record (MutatorCall.bezier_curve_to cp1 cp2 pt)

def CanvasData.arc (c : CanvasData) (center : Point2D F32)
    (radius start_angle end_angle : F32) (ccw : Bool) : CanvasData :=
  c.record (MutatorCall.arc center radius start_angle end_angle ccw)

def CanvasData.arc_to (c : CanvasData) (cp1 cp2 : Point2D F32) (radius : F32) : CanvasData :=
  c.record (MutatorCall.arc_to cp1 cp2 radius)

def CanvasData.ellipse (c : CanvasData) (center : Point2D F32)
    (rx ry rotation start_angle end_angle : F32) (ccw : Bool) : CanvasData :=
  c.record (MutatorCall.ellipse center rx ry rotation start_angle end_angle ccw)

def CanvasData.restore_context_state (c : CanvasData) : CanvasData :=
  c.record MutatorCall.restore_context_state

def CanvasData.save_context_state (c : CanvasData) : CanvasData :=
  c.record MutatorCall.save_context_state

def CanvasData.set_line_width (c : CanvasData) (w : F32) : CanvasData :=
  c.record (MutatorCall.set_line_width w)

def CanvasData.set_line_cap (c : CanvasData) (cap : LineCapStyle) : CanvasData :=
  c.record (MutatorCall.set_line_cap cap)

def CanvasData.set_line_join (c : CanvasData) (j : LineJoinStyle) : CanvasData :=
  c.record (MutatorCall.set_line_join j)

def CanvasData.set_miter_limit (c : CanvasData) (l : F32) : CanvasData :=
  c.record (MutatorCall.set_miter_limit l)

def CanvasData.set_transform (c : CanvasData) (m : Transform2D F32) : CanvasData :=
  c.record (MutatorCall.set_transform m)

def CanvasData.set_global_alpha (c : CanvasData) (a : F32) : CanvasData :=
  c.record (MutatorCall.set_global_alpha a)

def CanvasData.set_global_composition (c : CanvasData) (op : CompositionOrBlending) : CanvasData :=
  c.record (MutatorCall.set_global_composition op)

def CanvasData.set_shadow_offset_x (c : CanvasData) (v : F64) : CanvasData :=
  c.record (MutatorCall.set_shadow_offset_x v)

def CanvasData.set_shadow_offset_y (c : CanvasData) (v : F64) : CanvasData :=
  c.record (MutatorCall.set_shadow_offset_y v)

def CanvasData.set_shadow_blur (c : CanvasData) (v : F64) : CanvasData :=
  c.record (MutatorCall.set_shadow_blur v)

def CanvasData.set_shadow_color (c : CanvasData) (col : RGBA) : CanvasData :=
  c.record (MutatorCall.set_shadow_color col)

def CanvasData.set_font (c : CanvasData) (f : FontStyleStruct) : CanvasData :=
  c.record (MutatorCall.set_font f)

def CanvasData.set_text_align (c : CanvasData) (a : TextAlign) : CanvasData :=
  c.record (MutatorCall.set_text_align a)

def CanvasData.set_text_baseline (c : CanvasData) (b : TextBaseline) : CanvasData :=
  c.record (MutatorCall.set_text_baseline b)

def CanvasData.put_image_data (c : CanvasData) (data : List Nat) (r : Rect Nat) : CanvasData :=
  c.record (MutatorCall.put_image_data data r)

def CanvasData.recreate (c : CanvasData) (s : Size2D Nat) : CanvasData :=
  c.record (MutatorCall.recreate s)

def CanvasData.send_pixels (c : CanvasData) (s : IpcPixelSender) : CanvasData :=
  c.record (MutatorCall.send_pixels s)

/-- `CanvasData::get_transform` query.  Modelled from the spec:
`current_transform() -> matrix`; the value is an oracle field. -/
def CanvasData.get_transform (c : CanvasData) : Transform2D F32 :=
  c.transformVal

/-- `CanvasData::read_pixels` query.  Modelled from the spec:
`read_pixels(region, surface_size) -> pixel_buffer`; the value is an oracle
field (its signature has no failure channel). -/
def CanvasData.read_pixels (c : CanvasData) (dest_rect : Rect Nat)
    (canvas_size : Size2D Nat) : List Nat :=
  c.pixelsFn dest_rect canvas_size

/-- `CanvasData::is_point_in_path_bool` query.  Modelled from the spec:
`point_in_path(x, y, fill_rule) -> bool`; the value is an oracle field. -/
def CanvasData.is_point_in_path_bool (c : CanvasData) (x y : F64)
    (rule : FillRule) : Bool :=
  c.pointFn x y rule

/-- `CanvasData::get_data` query.  Modelled from the spec: `snapshot() ->
optional_handle`; the value is an oracle field. -/
def CanvasData.get_data (c : CanvasData) : Option CanvasImageData :=
  c.dataVal

/-- A fresh Actor with an empty call log and arbitrary oracle values (the
point-in-path oracle defaults to `false`, matching the spec's scenario for a
fresh canvas). -/
def emptyCanvas : CanvasData where
  calls := []
  transformVal := ⟨1, 0, 0, 1, 0, 0⟩
  pixelsFn := fun _ _ => []
  pointFn := fun _ _ _ => false
  dataVal := none

/-- `CanvasMessage` from `canvas_session.rs` (lines 19-57), one constructor
per variant, payloads modelled as above. -/
inductive CanvasMessage where
  | Arc (center : Point2D F32) (radius start_angle end_angle : F32) (ccw : Bool)
  | ArcTo (cp1 cp2 : Point2D F32) (radius : F32)
  | DrawImage (imagedata : Option ByteBuf) (image_size : Size2D F64)
      (dest_rect source_rect : Rect F64) (smoothing_enabled : Bool)
  | BeginPath
  | BezierCurveTo (cp1 cp2 pt : Point2D F32)
  | ClearRect (rect : Rect F32)
  | Clip
  | ClosePath
  | Ellipse (center : Point2D F32)
      (radius_x radius_y rotation start_angle end_angle : F32) (ccw : Bool)
  | Fill (style : FillOrStrokeStyle)
  | FillText (text : String) (x y : F64) (max_width : Option F64)
      (style : FillOrStrokeStyle) (is_rtl : Bool)
  | FillRect (rect : Rect F32) (style : FillOrStrokeStyle)
  | LineTo (point : Point2D F32)
  | MoveTo (point : Point2D F32)
  | QuadraticCurveTo (cp pt : Point2D F32)
  | Rectm (rect : Rect F32)
  | RestoreContext
  | SaveContext
  | StrokeRect (rect : Rect F32) (style : FillOrStrokeStyle)
  | Stroke (style : FillOrStrokeStyle)
  | SetLineWidth (width : F32)
  | SetLineCap (cap : LineCapStyle)
  | SetLineJoin (join : LineJoinStyle)
  | SetMiterLimit (limit : F32)
  | SetGlobalAlpha (alpha : F32)
  | SetGlobalComposition (op : CompositionOrBlending)
  | SetTransform (matrix : Transform2D F32)
  | SetShadowOffsetX (value : F64)
  | SetShadowOffsetY (value : F64)
  | SetShadowBlur (value : F64)
  | SetShadowColor (color : RGBA)
  | SetFont (font_style : FontStyleStruct)
  | SetTextAlign (align : TextAlign)
  | SetTextBaseline (baseline : TextBaseline)
  | PutImageData (rect : Rect Nat) (img : IpcSharedMemory)
  | Recreate (size : Size2D Nat)
deriving DecidableEq, Repr

/-- `handle_canvas_message` from `canvas_session.rs` (lines 98-202),
translated arm by arm.  (`CanvasMessage::Rect` is `Rectm` here because `Rect`
is taken by the geometry type in one shared namespace.) -/
def handle_canvas_message (canvas : CanvasData) (message : CanvasMessage) :
    CanvasData :=
  match message with
  | CanvasMessage.FillText text x y max_width style is_rtl =>
      (canvas.set_fill_style style).fill_text text x y max_width is_rtl
  | CanvasMessage.FillRect rect style =>
      (canvas.set_fill_style style).fill_rect rect
  | CanvasMessage.StrokeRect rect style =>
      (canvas.set_stroke_style style).stroke_rect rect
  | CanvasMessage.ClearRect rect => canvas.clear_rect rect
  | CanvasMessage.BeginPath => canvas.begin_path
  | CanvasMessage.ClosePath => canvas.close_path
  | CanvasMessage.Fill style => (canvas.set_fill_style style).fill
  | CanvasMessage.Stroke style => (canvas.set_stroke_style style).stroke
  | CanvasMessage.Clip => canvas.clip
  | CanvasMessage.DrawImage imagedata image_size dest_rect source_rect
      smoothing_enabled =>
      let data := match imagedata with
        | none =>
            List.replicate
              (image_size.width.toNat * image_size.height.toNat * 4) 0
        | some bytes => bytes
      canvas.draw_image data image_size dest_rect source_rect smoothing_enabled
  | CanvasMessage.MoveTo point => canvas.move_to point
  | CanvasMessage.LineTo point => canvas.line_to point
  | CanvasMessage.Rectm rect => canvas.rect rect
  | CanvasMessage.QuadraticCurveTo cp pt => canvas.quadratic_curve_to cp pt
  | CanvasMessage.BezierCurveTo cp1 cp2 pt => canvas.bezier_curve_to cp1 cp2 pt
  | CanvasMessage.Arc center radius start_angle end_angle ccw =>
      canvas.arc center radius start_angle end_angle ccw
  | CanvasMessage.ArcTo cp1 cp2 radius => canvas.arc_to cp1 cp2 radius
  | CanvasMessage.Ellipse center rx ry rotation start_angle end_angle ccw =>
      canvas.ellipse center rx ry rotation start_angle end_angle ccw
  | CanvasMessage.RestoreContext => canvas.restore_context_state
  | CanvasMessage.SaveContext => canvas.save_context_state
  | CanvasMessage.SetLineWidth width => canvas.set_line_width width
  | CanvasMessage.SetLineCap cap => canvas.set_line_cap cap
  | CanvasMessage.SetLineJoin join => canvas.set_line_join join
  | CanvasMessage.SetMiterLimit limit => canvas.set_miter_limit limit
  | CanvasMessage.SetTransform matrix => canvas.set_transform matrix
  | CanvasMessage.SetGlobalAlpha alpha => canvas.set_global_alpha alpha
  | CanvasMessage.SetGlobalComposition op => canvas.set_global_composition op
  | CanvasMessage.SetShadowOffsetX value => canvas.set_shadow_offset_x value
  | CanvasMessage.SetShadowOffsetY value => canvas.set_shadow_offset_y value
  | CanvasMessage.SetShadowBlur value => canvas.set_shadow_blur value
  | CanvasMessage.SetShadowColor color => canvas.set_shadow_color color
  | CanvasMessage.SetFont font_style => canvas.set_font font_style
  | CanvasMessage.SetTextAlign align => canvas.set_text_align align
  | CanvasMessage.SetTextBaseline baseline => canvas.set_text_baseline baseline
  | CanvasMessage.PutImageData rect img => canvas.put_image_data img rect
  | CanvasMessage.Recreate size => canvas.recreate size

/-- The `Messages` branch body of `canvas_session` (lines 214-225): a `for`
loop applying `handle_canvas_message` to each message in order. -/
def handleMessages (canvas : CanvasData) (messages : List CanvasMessage) :
    CanvasData :=
  messages.foldl handle_canvas_message canvas

/-! ## The protocol endpoint (`canvas_session`, lines 204-276)

The session type `CanvasSession = LinearToShared<ExternalChoice<CanvasOps>>`
is a single recurring offer over seven labels; each branch ends in
`detach_shared_session (canvas_session canvas)`, i.e. loops back to the offer
with the threaded `CanvasData`.  One checkout selects one label and carries
that label's payload; the model below is one step of this state machine. -/

/-- One checked-out request, i.e. a selected label of `CanvasOps` (lines
59-91) together with the value(s) the caller sends for it. -/
inductive CanvasRequest where
  | Message (m : CanvasMessage)
  | Messages (ms : List CanvasMessage)
  | GetTransform
  | GetImageData (dest_rect : Rect Nat) (canvas_size : Size2D Nat)
      (sender : IpcBytesSender)
  | IsPointInPath (x y : F64) (rule : FillRule)
  | FromLayout
  | FromScript (sender : IpcPixelSender)

/-- The protocol-level reply of one exchange (`SendValue` occurrences in
`CanvasOps`); branches without a `SendValue` reply with `NoReply`. -/
inductive CanvasReply where
  | NoReply
  | TransformReply (t : Transform2D F32)
  | BoolReply (b : Bool)
  | ImageDataReply (d : Option CanvasImageData)
deriving DecidableEq, Repr

/-- The state of the shared endpoint between checkouts.  `Offer` is the
recurring accept-offer state of `canvas_session`; `Closed` is a terminated
endpoint (never produced by `canvas_session_step`, present so that the
self-transition invariant is not forced by the type). -/
inductive EndpointState where
  | Offer (canvas : CanvasData)
  | Closed

/-- A panic raised by an `unwrap()` on a failed operation, aborting the
surrounding unit of work. -/
inductive UnwrapFault where
  | unwrapFault
deriving DecidableEq, Repr

/-- One step of `canvas_session` (lines 204-276): handle one checked-out
labeled interaction, producing the continuation endpoint state and the reply.
The `GetImageData` branch runs `sender.send(&pixels).unwrap()` (line 239): a
failed send panics that exchange, modelled as `Except.error`. -/
def canvas_session_step (canvas : CanvasData) :
    CanvasRequest → Except UnwrapFault (EndpointState × CanvasReply)
  | CanvasRequest.Message m =>
      Except.ok (EndpointState.Offer (handle_canvas_message canvas m),
        CanvasReply.NoReply)
  | CanvasRequest.Messages ms =>
      Except.ok (EndpointState.Offer (handleMessages canvas ms),
        CanvasReply.NoReply)
  | CanvasRequest.GetTransform =>
      Except.ok (EndpointState.Offer canvas,
        CanvasReply.TransformReply canvas.get_transform)
  | CanvasRequest.GetImageData dest_rect canvas_size sender =>
      let pixels := canvas.read_pixels dest_rect canvas_size
      match sender.send pixels with
      | Except.ok _ =>
          Except.ok (EndpointState.Offer canvas, CanvasReply.NoReply)
      | Except.error _ => Except.error UnwrapFault.unwrapFault
  | CanvasRequest.IsPointInPath x y rule =>
      Except.ok (EndpointState.Offer canvas,
        CanvasReply.BoolReply (canvas.is_point_in_path_bool x y rule))
  | CanvasRequest.FromLayout =>
      Except.ok (EndpointState.Offer canvas,
        CanvasReply.ImageDataReply canvas.get_data)
  | CanvasRequest.FromScript sender =>
      Except.ok (EndpointState.Offer (canvas.send_pixels sender),
        CanvasReply.NoReply)

/-! ## The serializer (`AsyncQueue`, lines 378-483)

The mpsc channel delivers items in FIFO send order; the spawned receiver loop
processes one item at a time.  `runSerializer` folds that loop over the list
of items the loop receives (in arrival order), threading the `messages`
buffer and emitting, in program order, the observable interactions of the
loop: a `Batch` for every `send_canvas_messages` handoff, and a `RunTask` for
every `task.await`.  Tasks carry an abstract tag `τ` (the boxed future). -/

/-- `QueueItem` (lines 378-384). -/
inductive QueueItem (τ : Type) where
  | Yield
  | Message (m : CanvasMessage)
  | Task (t : τ)
deriving DecidableEq, Repr

/-- An observable interaction of the serializer loop: `Batch ms` is a
`send_canvas_messages` handoff of the drained buffer toward the Actor (lines
392-402, a spawned `Messages` choice), `RunTask t` is the loop awaiting the
task `t` (line 435). -/
inductive Interaction (τ : Type) where
  | Batch (messages : List CanvasMessage)
  | RunTask (t : τ)
deriving DecidableEq, Repr

/-- One iteration of the receiver loop in `AsyncQueue::new` (lines 413-438)
on a received item: returns the new `messages` buffer and the interactions
emitted by this iteration, in order.  `Message` pushes onto the buffer;
`Yield` hands the whole buffer off as one batch when non-empty; `Task` first
hands the whole buffer off when non-empty, then awaits the task. -/
def serializerStep {τ : Type} (buffer : List CanvasMessage) :
    QueueItem τ → List CanvasMessage × List (Interaction τ)
  | QueueItem.Message m => (buffer ++ [m], [])
  | QueueItem.Yield =>
      if buffer.isEmpty then (buffer, [])
      else ([], [Interaction.Batch buffer])
  | QueueItem.Task t =>
      if buffer.isEmpty then (buffer, [Interaction.RunTask t])
      else ([], [Interaction.Batch buffer, Interaction.RunTask t])

/-- The receiver loop of `AsyncQueue::new` (lines 411-442) run over the whole
list of items it receives, in arrival order, starting from buffer `buffer`;
result: the emitted interactions in order.  The empty list is the `None`
branch (every sender dropped): the loop breaks, discarding the buffer. -/
def runSerializer {τ : Type} (buffer : List CanvasMessage) :
    List (QueueItem τ) → List (Interaction τ)
  | [] => []
  | item :: rest =>
      let step := serializerStep buffer item
      step.2 ++ runSerializer step.1 rest

/-! ## Submission into the queue (lines 460-462 and 478)

The producer side of the mpsc channel: `UnboundedSender::send` succeeds and
appends to the FIFO while the receiver (the serializer loop) is alive, and
returns `Err` once the receiver has been dropped.  Both call sites unwrap
that result, so a dead serializer turns a submission into a panic. -/

/-- The producer-visible state of the unbounded mpsc channel: whether the
receiver (the serializer loop) still holds its end, and the FIFO of items
already sent but not yet received. -/
structure QueueState (τ : Type) where
  receiverAlive : Bool
  queued : List (QueueItem τ)

/-- `UnboundedSender::send`: appends to the FIFO and succeeds while the
receiver is alive; fails (returns `none`, the `Err` case) once the receiver
has been dropped.  It never suspends the caller. -/
def mpscSend {τ : Type} (st : QueueState τ) (item : QueueItem τ) :
    Option (QueueState τ) :=
  if st.receiverAlive then some { st with queued := st.queued ++ [item] }
  else none

/-- `AsyncQueue::send_canvas_message` (lines 460-462):
`self.task_sender.send(QueueItem::Message(message)).ok().unwrap()` — the send
result is unwrapped, so a dead receiver is a panic, not an error return. -/
def send_canvas_message {τ : Type} (st : QueueState τ) (message : CanvasMessage) :
    Except UnwrapFault (QueueState τ) :=
  match mpscSend st (QueueItem.Message message) with
  | some st2 => Except.ok st2
  | none => Except.error UnwrapFault.unwrapFault

/-- The submission half of `AsyncQueue::enqueue_task` (line 478):
`self.task_sender.send(QueueItem::Task(job)).ok().unwrap()` — same unwrapped
send, carrying the wrapped job. -/
def submitTaskEvent {τ : Type} (st : QueueState τ) (t : τ) :
    Except UnwrapFault (QueueState τ) :=
  match mpscSend st (QueueItem.Task t) with
  | some st2 => Except.ok st2
  | none => Except.error UnwrapFault.unwrapFault

/-! ## The task bridge (`enqueue_task`, lines 464-483)

`enqueue_task` creates a `once_channel` (the one-shot result slot), wraps the
caller's work into a job that runs it and sends the result into the slot, and
returns a spawned handle that awaits the slot.  The caller's asynchronous
unit of work is modelled as a function `Unit → α` (its eventual result); a
fallible unit of work instantiates `α` with an `Except`. -/

/-- A pending task: the wrapped unit of work together with its one-shot
result slot (`once_channel`); the slot is `none` until the serializer
executes the job. -/
structure PendingTask (α : Type) where
  work : Unit → α
  slot : Option α

/-- `AsyncQueue::enqueue_task` (lines 464-483), bridge half: create the
one-shot slot (empty) and wrap the work; the call returns at once, before any
execution. -/
def enqueue_task {α : Type} (work : Unit → α) : PendingTask α :=
  { work := work, slot := none }

/-- The wrapped job submitted at line 474-477 (`let res = task().await;
sender.send(res).unwrap()`), as run by the serializer when it dequeues the
`Task` event: run the work once and write its result into the slot. -/
def runJob {α : Type} (p : PendingTask α) : PendingTask α :=
  { p with slot := some (p.work ()) }

/-- Awaiting the handle returned by `enqueue_task` (lines 480-482:
`receiver.recv().await` on the one-shot slot): yields the slot's content once
filled, nothing before. -/
def awaitHandle {α : Type} (p : PendingTask α) : Option α :=
  p.slot

/-! ## Counting helpers for exactly-once execution -/

/-- Number of `Task i` events in a list of queue items. -/
def countTaskItems (i : Nat) : List (QueueItem Nat) → Nat
  | [] => 0
  | QueueItem.Task j :: rest =>
      (if j = i then 1 else 0) + countTaskItems i rest
  | _ :: rest => countTaskItems i rest

/-- Number of `RunTask i` interactions in a serializer trace. -/
def countRunTask (i : Nat) : List (Interaction Nat) → Nat
  | [] => 0
  | Interaction.RunTask j :: rest =>
      (if j = i then 1 else 0) + countRunTask i rest
  | _ :: rest => countRunTask i rest

/-- The mutator calls one `CanvasMessage` dispatches (its contribution to the
Actor's call log). -/
def msgCalls (m : CanvasMessage) : List MutatorCall :=
  (handle_canvas_message emptyCanvas m).calls

/-! ## Helper lemmas -/

lemma handle_canvas_message_calls (c : CanvasData) (m : CanvasMessage) :
    (handle_canvas_message c m).calls = c.calls ++ msgCalls m := by
  cases m <;>
    simp [handle_canvas_message, msgCalls, emptyCanvas, CanvasData.record,
      CanvasData.set_fill_style, CanvasData.fill_text, CanvasData.fill_rect,
      CanvasData.set_stroke_style, CanvasData.stroke_rect,
      CanvasData.clear_rect, CanvasData.begin_path, CanvasData.close_path,
      CanvasData.fill, CanvasData.stroke, CanvasData.clip,
      CanvasData.draw_image, CanvasData.move_to, CanvasData.line_to,
      CanvasData.rect, CanvasData.quadratic_curve_to,
      CanvasData.bezier_curve_to, CanvasData.arc, CanvasData.arc_to,
      CanvasData.ellipse, CanvasData.restore_context_state,
      CanvasData.save_context_state, CanvasData.set_line_width,
      CanvasData.set_line_cap, CanvasData.set_line_join,
      CanvasData.set_miter_limit, CanvasData.set_transform,
      CanvasData.set_global_alpha, CanvasData.set_global_composition,
      CanvasData.set_shadow_offset_x, CanvasData.set_shadow_offset_y,
      CanvasData.set_shadow_blur, CanvasData.set_shadow_color,
      CanvasData.set_font, CanvasData.set_text_align,
      CanvasData.set_text_baseline, CanvasData.put_image_data,
      CanvasData.recreate]

lemma handleMessages_calls (cs : List CanvasMessage) :
    ∀ c : CanvasData,
      (handleMessages c cs).calls = c.calls ++ (cs.map msgCalls).flatten := by
  induction cs with
  | nil => intro c; simp [handleMessages]
  | cons m ms ih =>
      intro c
      have h1 := ih (handle_canvas_message c m)
      simp only [handleMessages, List.foldl_cons] at h1 ⊢
      rw [h1, handle_canvas_message_calls, List.map_cons, List.flatten_cons,
        List.append_assoc]

lemma runSerializer_messages {τ : Type} (cs : List CanvasMessage) :
    ∀ (buffer : List CanvasMessage) (rest : List (QueueItem τ)),
      runSerializer buffer (cs.map QueueItem.Message ++ rest) =
        runSerializer (buffer ++ cs) rest := by
  induction cs with
  | nil => intro buffer rest; simp
  | cons c cs ih =>
      intro buffer rest
      simp only [List.map_cons, List.cons_append, runSerializer, serializerStep,
        List.nil_append, List.append_eq]
      rw [ih]
      simp

lemma runSerializer_yields {τ : Type} (n : Nat) :
    runSerializer [] (List.replicate n (QueueItem.Yield : QueueItem τ)) = [] := by
  induction n with
  | zero => rfl
  | succ n ih => simpa [List.replicate_succ, runSerializer, serializerStep] using ih

lemma runSerializer_task_cons {τ : Type} (buffer : List CanvasMessage) (t : τ)
    (rest : List (QueueItem τ)) :
    runSerializer buffer (QueueItem.Task t :: rest) =
      (if buffer.isEmpty then [] else [Interaction.Batch buffer]) ++
        Interaction.RunTask t :: runSerializer [] rest := by
  cases buffer <;> simp [runSerializer, serializerStep]

lemma countRunTask_runSerializer (items : List (QueueItem Nat)) :
    ∀ (buffer : List CanvasMessage) (i : Nat),
      countRunTask i (runSerializer buffer items) = countTaskItems i items := by
  induction items with
  | nil => intro buffer i; simp [runSerializer, countRunTask, countTaskItems]
  | cons item rest ih =>
      intro buffer i
      cases item with
      | Message m =>
          simp [runSerializer, serializerStep, countTaskItems, ih]
      | Yield =>
          cases buffer <;>
            simp [runSerializer, serializerStep, countRunTask, countTaskItems, ih]
      | Task t =>
          cases buffer <;>
            simp [runSerializer, serializerStep, countRunTask, countTaskItems, ih]

/-! ## Claims -/

/-- Claim C1: when the serializer dequeues a `Task` with a non-empty buffer,
it first drains the entire buffer into one batch handoff toward the Actor and
only then awaits the task; in particular, for `N` command submissions
followed by one task submission, the trace is exactly the batch of all `N`
commands in submission order, followed by the task's execution. -/
theorem task_flushes_buffer_first {τ : Type} (cs : List CanvasMessage) (t : τ)
    (h : cs ≠ []) :
    serializerStep cs (QueueItem.Task t) =
      ([], [Interaction.Batch cs, Interaction.RunTask t]) ∧
    runSerializer [] (cs.map QueueItem.Message ++ [QueueItem.Task t]) =
      [Interaction.Batch cs, Interaction.RunTask t] := by
  obtain ⟨c, cs', rfl⟩ : ∃ c cs', cs = c :: cs' := by
    cases cs with
    | nil => exact absurd rfl h
    | cons c cs' => exact ⟨c, cs', rfl⟩
  constructor
  · simp [serializerStep]
  · rw [runSerializer_messages]
    simp [runSerializer, serializerStep]

/-- Witness for C1 at one command and one task. -/
theorem task_flushes_buffer_first_witness :
    ([CanvasMessage.BeginPath] : List CanvasMessage) ≠ [] ∧
    (serializerStep [CanvasMessage.BeginPath] (QueueItem.Task 0) =
      ([], [Interaction.Batch [CanvasMessage.BeginPath], Interaction.RunTask 0]) ∧
    runSerializer []
        ([CanvasMessage.BeginPath].map QueueItem.Message ++ [QueueItem.Task 0]) =
      [Interaction.Batch [CanvasMessage.BeginPath], Interaction.RunTask 0]) :=
  ⟨by decide, task_flushes_buffer_first [CanvasMessage.BeginPath] 0 (by decide)⟩

/-- Claim C2: submitting `c1..ck` then a tick produces exactly one batch
interaction carrying exactly `[c1..ck]` in submission order; a subsequent
tick (or any number of them) with no new commands produces zero further
interactions, and empty-buffer ticks are no-ops; and the `Messages` branch of
`canvas_session` applies the batch's operations to the Actor in exactly
submission order (the call log grows by each message's mutator calls, in
batch order). -/
theorem tick_batches_in_order {τ : Type} (canvas : CanvasData)
    (cs : List CanvasMessage) (n : Nat) (h : cs ≠ []) :
    runSerializer []
        (cs.map QueueItem.Message ++ [(QueueItem.Yield : QueueItem τ)]) =
      [Interaction.Batch cs] ∧
    runSerializer []
        (cs.map QueueItem.Message ++
          QueueItem.Yield :: List.replicate n (QueueItem.Yield : QueueItem τ)) =
      [Interaction.Batch cs] ∧
    runSerializer [] (List.replicate n (QueueItem.Yield : QueueItem τ)) = [] ∧
    (handleMessages canvas cs).calls =
      canvas.calls ++ (cs.map msgCalls).flatten := by
  obtain ⟨c, cs', rfl⟩ : ∃ c cs', cs = c :: cs' := by
    cases cs with
    | nil => exact absurd rfl h
    | cons c cs' => exact ⟨c, cs', rfl⟩
  refine ⟨?_, ?_, runSerializer_yields n, handleMessages_calls _ canvas⟩
  · rw [runSerializer_messages]
    simp [runSerializer, serializerStep]
  · rw [runSerializer_messages]
    simp [runSerializer, serializerStep, runSerializer_yields]

/-- Witness for C2 at one command and two trailing empty ticks. -/
theorem tick_batches_in_order_witness :
    ([CanvasMessage.BeginPath] : List CanvasMessage) ≠ [] ∧
    (runSerializer []
        ([CanvasMessage.BeginPath].map QueueItem.Message ++
          [(QueueItem.Yield : QueueItem Nat)]) =
      [Interaction.Batch [CanvasMessage.BeginPath]] ∧
    runSerializer []
        ([CanvasMessage.BeginPath].map QueueItem.Message ++
          QueueItem.Yield :: List.replicate 2 (QueueItem.Yield : QueueItem Nat)) =
      [Interaction.Batch [CanvasMessage.BeginPath]] ∧
    runSerializer [] (List.replicate 2 (QueueItem.Yield : QueueItem Nat)) = [] ∧
    (handleMessages emptyCanvas [CanvasMessage.BeginPath]).calls =
      emptyCanvas.calls ++ ([CanvasMessage.BeginPath].map msgCalls).flatten) :=
  ⟨by decide, tick_batches_in_order emptyCanvas [CanvasMessage.BeginPath] 2 (by decide)⟩

/-- Claim C3: the serializer drains its event stream strictly in arrival
order, one event at a time; dequeuing a `Task` produces (after the flush of
any pending buffer) the task's execution, and every interaction caused by
events that arrive after the task — in particular the delivery of later
commands — appears strictly after the task's execution in the trace. -/
theorem task_precedes_later_events {τ : Type} (buffer : List CanvasMessage)
    (t : τ) (rest : List (QueueItem τ)) :
    runSerializer buffer (QueueItem.Task t :: rest) =
      (if buffer.isEmpty then [] else [Interaction.Batch buffer]) ++
        Interaction.RunTask t :: runSerializer [] rest :=
  runSerializer_task_cons buffer t rest

/-- Claim C4: `enqueue_task` with a unit of work returning `V` returns an
awaitable handle at once (its one-shot slot still empty, so nothing has been
waited for); the serializer executes the submitted `Task` event exactly once
whenever it occurs exactly once among the queued items, whatever unrelated
commands and tasks surround it; and once the job has run, awaiting the handle
yields exactly `V`. -/
theorem enqueue_task_exactly_once {α : Type} (work : Unit → α) (V : α)
    (hw : work () = V) (buffer : List CanvasMessage)
    (items : List (QueueItem Nat)) (i : Nat)
    (hi : countTaskItems i items = 1) :
    awaitHandle (enqueue_task work) = none ∧
    awaitHandle (runJob (enqueue_task work)) = some V ∧
    countRunTask i (runSerializer buffer items) = 1 := by
  refine ⟨rfl, ?_, ?_⟩
  · simp [awaitHandle, runJob, enqueue_task, hw]
  · rw [countRunTask_runSerializer]
    exact hi

/-- Witness for C4: a task returning 42, queued between a command and an
unrelated tick. -/
theorem enqueue_task_exactly_once_witness :
    ((fun _ : Unit => (42 : Nat)) () = 42 ∧
      countTaskItems 0
        [QueueItem.Message CanvasMessage.BeginPath, QueueItem.Task 0,
          QueueItem.Yield] = 1) ∧
    (awaitHandle (enqueue_task (fun _ : Unit => (42 : Nat))) = none ∧
     awaitHandle (runJob (enqueue_task (fun _ : Unit => (42 : Nat)))) = some 42 ∧
     countRunTask 0 (runSerializer []
       [QueueItem.Message CanvasMessage.BeginPath, QueueItem.Task 0,
         QueueItem.Yield]) = 1) :=
  ⟨⟨rfl, by decide⟩,
    enqueue_task_exactly_once (fun _ : Unit => (42 : Nat)) 42 rfl []
      [QueueItem.Message CanvasMessage.BeginPath, QueueItem.Task 0,
        QueueItem.Yield] 0 (by decide)⟩

/-- Claim C5: the protocol endpoint is a single recurring offer state: every
checked-out interaction that completes returns the endpoint to the `Offer`
state (over the threaded Actor), for each of the seven labels, so the full
label menu is available again for the next checkout. -/
theorem offer_self_transition (canvas : CanvasData) (req : CanvasRequest)
    (st : EndpointState) (reply : CanvasReply)
    (h : canvas_session_step canvas req = Except.ok (st, reply)) :
    ∃ canvas2, st = EndpointState.Offer canvas2 := by
  cases req with
  | Message m =>
      simp [canvas_session_step] at h
      exact ⟨_, h.1.symm⟩
  | Messages ms =>
      simp [canvas_session_step] at h
      exact ⟨_, h.1.symm⟩
  | GetTransform =>
      simp [canvas_session_step] at h
      exact ⟨_, h.1.symm⟩
  | GetImageData dest_rect canvas_size sender =>
      cases hc : sender.connected with
      | false => simp [canvas_session_step, IpcBytesSender.send, hc] at h
      | true =>
          simp [canvas_session_step, IpcBytesSender.send, hc] at h
          exact ⟨_, h.1.symm⟩
  | IsPointInPath x y rule =>
      simp [canvas_session_step] at h
      exact ⟨_, h.1.symm⟩
  | FromLayout =>
      simp [canvas_session_step] at h
      exact ⟨_, h.1.symm⟩
  | FromScript sender =>
      simp [canvas_session_step] at h
      exact ⟨_, h.1.symm⟩

/-- Witness for C5 at the `Message` label on a fresh Actor. -/
theorem offer_self_transition_witness :
    canvas_session_step emptyCanvas
        (CanvasRequest.Message CanvasMessage.BeginPath) =
      Except.ok
        (EndpointState.Offer (handle_canvas_message emptyCanvas CanvasMessage.BeginPath),
          CanvasReply.NoReply) ∧
    ∃ canvas2,
      EndpointState.Offer (handle_canvas_message emptyCanvas CanvasMessage.BeginPath) =
        EndpointState.Offer canvas2 :=
  ⟨rfl,
    offer_self_transition emptyCanvas
      (CanvasRequest.Message CanvasMessage.BeginPath)
      (EndpointState.Offer (handle_canvas_message emptyCanvas CanvasMessage.BeginPath))
      CanvasReply.NoReply rfl⟩

/-- Claim C6: a unit of work that fails (returns a failure value) has that
failure captured in the task's one-shot result slot and delivered to the
awaiting handle, and the serializer survives: after executing any task it
keeps draining the remaining events exactly as it would have otherwise. -/
theorem task_fault_captured {ε β : Type} (work : Unit → Except ε β) (e : ε)
    (hw : work () = Except.error e) (buffer : List CanvasMessage)
    (t : Nat) (rest : List (QueueItem Nat)) :
    awaitHandle (runJob (enqueue_task work)) = some (Except.error e) ∧
    runSerializer buffer (QueueItem.Task t :: rest) =
      (if buffer.isEmpty then [] else [Interaction.Batch buffer]) ++
        Interaction.RunTask t :: runSerializer [] rest :=
  ⟨by simp [awaitHandle, runJob, enqueue_task, hw],
    runSerializer_task_cons buffer t rest⟩

/-- Witness for C6: a task failing with error 7, followed by a tick the
serializer still processes. -/
theorem task_fault_captured_witness :
    (fun _ : Unit => (Except.error 7 : Except Nat Nat)) () = Except.error 7 ∧
    (awaitHandle (runJob (enqueue_task
        (fun _ : Unit => (Except.error 7 : Except Nat Nat)))) =
      some (Except.error 7) ∧
    runSerializer [] (QueueItem.Task 0 :: [(QueueItem.Yield : QueueItem Nat)]) =
      (if ([] : List CanvasMessage).isEmpty then [] else [Interaction.Batch []]) ++
        Interaction.RunTask 0 :: runSerializer [] [(QueueItem.Yield : QueueItem Nat)]) :=
  ⟨rfl,
    task_fault_captured (fun _ : Unit => (Except.error 7 : Except Nat Nat)) 7 rfl
      [] 0 [QueueItem.Yield]⟩

/-- Counterexample to claim C7 as stated: when delivery of the pixel reply to
the caller's sink fails (the sink's receiving end is disconnected), the
`GetImageData` exchange does not return a failed reply to the caller — it
panics, because the branch runs `sender.send(&pixels).unwrap()`; the step's
result is the propagated `unwrap` fault, not an `Except.ok` carrying any
reply. -/
theorem getimagedata_sink_fault_is_panic :
    canvas_session_step emptyCanvas
        (CanvasRequest.GetImageData ⟨⟨0, 0⟩, ⟨0, 0⟩⟩ ⟨0, 0⟩ ⟨false⟩) =
      Except.error UnwrapFault.unwrapFault :=
  rfl

/-- Claim C7 as amended: in the `GetImageData` exchange, `read_pixels` has no
failure channel, and a failure to deliver the pixel reply to the caller's
sink is not returned as a failed reply — the handler unwraps the send result,
so the exchange panics; when delivery succeeds the exchange completes with no
protocol-level reply and the endpoint returns to the offer state.  (The
`AsyncQueue` serializer is not part of this exchange either way: batch
handoffs are independently spawned.) -/
theorem getimagedata_fault_behavior (canvas : CanvasData)
    (dest_rect : Rect Nat) (canvas_size : Size2D Nat)
    (sender : IpcBytesSender) :
    (sender.connected = false →
      canvas_session_step canvas
          (CanvasRequest.GetImageData dest_rect canvas_size sender) =
        Except.error UnwrapFault.unwrapFault) ∧
    (sender.connected = true →
      canvas_session_step canvas
          (CanvasRequest.GetImageData dest_rect canvas_size sender) =
        Except.ok (EndpointState.Offer canvas, CanvasReply.NoReply)) := by
  constructor <;> intro hc <;>
    simp [canvas_session_step, IpcBytesSender.send, hc]

/-- Witness for the amended C7, on a disconnected and on a connected sink. -/
theorem getimagedata_fault_behavior_witness :
    ((⟨false⟩ : IpcBytesSender).connected = false ∧
      canvas_session_step emptyCanvas
          (CanvasRequest.GetImageData ⟨⟨0, 0⟩, ⟨0, 0⟩⟩ ⟨0, 0⟩ ⟨false⟩) =
        Except.error UnwrapFault.unwrapFault) ∧
    ((⟨true⟩ : IpcBytesSender).connected = true ∧
      canvas_session_step emptyCanvas
          (CanvasRequest.GetImageData ⟨⟨0, 0⟩, ⟨0, 0⟩⟩ ⟨0, 0⟩ ⟨true⟩) =
        Except.ok (EndpointState.Offer emptyCanvas, CanvasReply.NoReply)) :=
  ⟨⟨rfl,
      (getimagedata_fault_behavior emptyCanvas ⟨⟨0, 0⟩, ⟨0, 0⟩⟩ ⟨0, 0⟩ ⟨false⟩).1 rfl⟩,
    ⟨rfl,
      (getimagedata_fault_behavior emptyCanvas ⟨⟨0, 0⟩, ⟨0, 0⟩⟩ ⟨0, 0⟩ ⟨true⟩).2 rfl⟩⟩

/-- Claim C8: while the serializer loop still holds the queue receiver, both
`send_canvas_message` and `enqueue_task`'s `Task` submission enqueue their
item at the back of the FIFO and return successfully (and `mpscSend` never
suspends); once the receiver has been dropped, both unwrap the failed send
and panic instead of returning an error. -/
theorem send_requires_live_receiver {τ : Type} (q : List (QueueItem τ))
    (m : CanvasMessage) (t : τ) :
    send_canvas_message ⟨true, q⟩ m =
      Except.ok ⟨true, q ++ [QueueItem.Message m]⟩ ∧
    send_canvas_message ⟨false, q⟩ m =
      Except.error UnwrapFault.unwrapFault ∧
    submitTaskEvent ⟨true, q⟩ t =
      Except.ok ⟨true, q ++ [QueueItem.Task t]⟩ ∧
    submitTaskEvent ⟨false, q⟩ t =
      Except.error UnwrapFault.unwrapFault :=
  ⟨rfl, rfl, rfl, rfl⟩

/-- Claim C9: when the event stream closes (the receiver loop's `recv`
returns `None`), the loop exits immediately with no final flush: a non-empty
buffer is discarded, and commands that were enqueued but never followed by a
tick or task are never submitted to the Actor (the emitted trace is empty). -/
theorem stream_close_discards_buffer {τ : Type}
    (buffer cs : List CanvasMessage) :
    runSerializer buffer ([] : List (QueueItem τ)) = [] ∧
    runSerializer []
      (cs.map (QueueItem.Message : CanvasMessage → QueueItem τ)) = [] := by
  refine ⟨rfl, ?_⟩
  have h := @runSerializer_messages τ cs [] []
  simpa using h

/-- Claim C10: a `DrawImage` whose image-data field is `None` is neither
rejected nor dropped: the handler substitutes an all-zero pixel buffer of
exactly `width * height * 4` bytes, computed from the operation's image size,
and draws with that buffer. -/
theorem drawimage_none_zero_buffer (canvas : CanvasData)
    (image_size : Size2D F64) (dest_rect source_rect : Rect F64)
    (smoothing : Bool) :
    (handle_canvas_message canvas
        (CanvasMessage.DrawImage none image_size dest_rect source_rect
          smoothing)).calls =
      canvas.calls ++
        [MutatorCall.draw_image
          (List.replicate
            (image_size.width.toNat * image_size.height.toNat * 4) 0)
          image_size dest_rect source_rect smoothing] := by
  simp [handle_canvas_message, CanvasData.draw_image, CanvasData.record]

end Servo
